import Mathlib

/-!
Verification of the analytics-management binding layer: the operation-kind
catalog and option defaults from src/management/analytics_management.hxx, and
the query-consistency / profile-mode string converters from src/n1ql.hxx.
Functions whose bodies live outside the provided headers (only declarations
are present) are modelled from the specification and marked as such in their
doc comments.
-/

/-- Placeholder for the host-language object handle (PyObject pointer).
Its internal structure is irrelevant to every property proved here. -/
structure PyObject where
  id : Nat
deriving DecidableEq

namespace AnalyticsManagementOperations

/-- The nested enum AnalyticsManagementOperations::OperationType, constructors
in the declaration order of analytics_management.hxx lines 27-44. -/
inductive OperationType where
  | UNKNOWN
  | CREATE_DATAVERSE
  | CREATE_DATASET
  | CREATE_INDEX
  | GET_ALL_DATASETS
  | GET_ALL_INDEXES
  | DROP_DATAVERSE
  | DROP_DATASET
  | DROP_INDEX
  | GET_PENDING_MUTATIONS
  | LINK_CREATE
  | LINK_CONNECT
  | GET_ALL_LINKS
  | LINK_DISCONNECT
  | LINK_REPLACE
  | DROP_LINK
deriving DecidableEq, BEq, Fintype, Repr

/-- The underlying integral value of each enumerator: C++ assigns 0, 1, 2, ...
in declaration order since no explicit values appear in the source. -/
def OperationType.toNat : OperationType → Nat
  | .UNKNOWN => 0
  | .CREATE_DATAVERSE => 1
  | .CREATE_DATASET => 2
  | .CREATE_INDEX => 3
  | .GET_ALL_DATASETS => 4
  | .GET_ALL_INDEXES => 5
  | .DROP_DATAVERSE => 6
  | .DROP_DATASET => 7
  | .DROP_INDEX => 8
  | .GET_PENDING_MUTATIONS => 9
  | .LINK_CREATE => 10
  | .LINK_CONNECT => 11
  | .GET_ALL_LINKS => 12
  | .LINK_DISCONNECT => 13
  | .LINK_REPLACE => 14
  | .DROP_LINK => 15

/-- The source identifier of each enumerator, as spelled in the enum
declaration. -/
def OperationType.name : OperationType → String
  | .UNKNOWN => "UNKNOWN"
  | .CREATE_DATAVERSE => "CREATE_DATAVERSE"
  | .CREATE_DATASET => "CREATE_DATASET"
  | .CREATE_INDEX => "CREATE_INDEX"
  | .GET_ALL_DATASETS => "GET_ALL_DATASETS"
  | .GET_ALL_INDEXES => "GET_ALL_INDEXES"
  | .DROP_DATAVERSE => "DROP_DATAVERSE"
  | .DROP_DATASET => "DROP_DATASET"
  | .DROP_INDEX => "DROP_INDEX"
  | .GET_PENDING_MUTATIONS => "GET_PENDING_MUTATIONS"
  | .LINK_CREATE => "LINK_CREATE"
  | .LINK_CONNECT => "LINK_CONNECT"
  | .GET_ALL_LINKS => "GET_ALL_LINKS"
  | .LINK_DISCONNECT => "LINK_DISCONNECT"
  | .LINK_REPLACE => "LINK_REPLACE"
  | .DROP_LINK => "DROP_LINK"

/-- All sixteen enumerators in declaration order. -/
def declOrder : List OperationType :=
  [.UNKNOWN, .CREATE_DATAVERSE, .CREATE_DATASET, .CREATE_INDEX,
   .GET_ALL_DATASETS, .GET_ALL_INDEXES, .DROP_DATAVERSE, .DROP_DATASET,
   .DROP_INDEX, .GET_PENDING_MUTATIONS, .LINK_CREATE, .LINK_CONNECT,
   .GET_ALL_LINKS, .LINK_DISCONNECT, .LINK_REPLACE, .DROP_LINK]

/-- The non-sentinel enumerators, in declaration order. -/
def nonSentinelOps : List OperationType :=
  declOrder.filter (fun t => t != OperationType.UNKNOWN)

end AnalyticsManagementOperations

/-- The wrapper class AnalyticsManagementOperations: a tagged value holding
one OperationType (private member `operation`). -/
structure AnalyticsManagementOperations where
  operation : AnalyticsManagementOperations.OperationType

namespace AnalyticsManagementOperations

/-- The converting constructor `AnalyticsManagementOperations(OperationType op)`:
stores the given enumerator. -/
def fromOp (op : OperationType) : AnalyticsManagementOperations :=
  { operation := op }

/-- The default constructor `AnalyticsManagementOperations()`: delegates to the
converting constructor with UNKNOWN (analytics_management.hxx lines 46-49). -/
def mkDefault : AnalyticsManagementOperations :=
  fromOp OperationType.UNKNOWN

/-- The member `operator==`: compares the stored enum values, which in C++ is
equality of the underlying integral values. -/
def beqOp (a b : AnalyticsManagementOperations) : Bool :=
  a.operation.toNat == b.operation.toNat

/-- The member `operator!=`: disequality of the stored enum values at the
underlying integral level. -/
def bneOp (a b : AnalyticsManagementOperations) : Bool :=
  a.operation.toNat != b.operation.toNat

/-- The static member ALL_OPERATIONS: a single string literal formed in the
source by juxtaposing fifteen adjacent literals, one per non-sentinel
enumerator, each ending in one space (analytics_management.hxx lines 70-89). -/
def ALL_OPERATIONS : String :=
  "CREATE_DATAVERSE " ++
  "CREATE_DATASET " ++
  "CREATE_INDEX " ++
  "GET_ALL_DATASETS " ++
  "GET_ALL_INDEXES " ++
  "DROP_DATAVERSE " ++
  "DROP_DATASET " ++
  "DROP_INDEX " ++
  "GET_PENDING_MUTATIONS " ++
  "LINK_CREATE " ++
  "LINK_CONNECT " ++
  "GET_ALL_LINKS " ++
  "LINK_DISCONNECT " ++
  "LINK_REPLACE " ++
  "DROP_LINK "

end AnalyticsManagementOperations

/-- The process-wide default management timeout of the wrapped native client
library (couchbase::timeout_defaults::management_timeout), in milliseconds.
The library is the external collaborator; its numeric value (75 seconds) is
never asserted by any theorem below, only the identity of the constant. -/
def timeout_defaults.management_timeout : Nat := 75000

/-- The struct analytics_mgmt_options (analytics_management.hxx lines 95-99):
op_args has no default initializer; op_type defaults to UNKNOWN; timeout_ms
defaults to the process-wide management timeout. -/
structure analytics_mgmt_options where
  op_args : PyObject
  op_type : AnalyticsManagementOperations.OperationType :=
    AnalyticsManagementOperations.OperationType.UNKNOWN
  timeout_ms : Nat := timeout_defaults.management_timeout

/-- couchbase::query_scan_consistency of the native library: two modes.
not_bounded is the first enumerator, hence the value produced by C++
value-initialization (the braced empty initializer in n1ql.hxx line 39). -/
inductive query_scan_consistency where
  | not_bounded
  | request_plus
deriving DecidableEq, Repr

/-- str_to_scan_consistency_type (n1ql.hxx lines 26-40), instantiated at
query_scan_consistency. Returns the parsed mode together with the Python
error indicator it sets: none when the token is recognized, otherwise the
ValueError message built by fmt::format, with the function then returning
the value-initialized enum (not_bounded). -/
def str_to_scan_consistency_type (consistency : String) :
    query_scan_consistency × Option String :=
  if consistency = "not_bounded" then
    (query_scan_consistency.not_bounded, none)
  else if consistency = "request_plus" then
    (query_scan_consistency.request_plus, none)
  else
    (query_scan_consistency.not_bounded,
     some ("Invalid Scan Consistency type " ++ consistency))

/-- Modelled from the spec: scan_consistency_type_to_string is only declared in
src/n1ql.hxx (lines 42-43); its body lives in a translation unit absent from
src. The spec names it consistency_to_token, the inverse of parse_consistency
on the canonical tokens not_bounded and request_plus. -/
def scan_consistency_type_to_string : query_scan_consistency → String
  | query_scan_consistency.not_bounded => "not_bounded"
  | query_scan_consistency.request_plus => "request_plus"

/-- couchbase::query_profile_mode of the native library: the query-profiling
verbosity levels. -/
inductive query_profile_mode where
  | off
  | phases
  | timings
deriving DecidableEq, Repr

/-- Modelled from the spec: profile_mode_to_str is only declared in
src/n1ql.hxx (lines 48-49). The spec calls it profile_mode_to_token, mapping
each profile mode to its canonical string token. -/
def profile_mode_to_str : query_profile_mode → String
  | query_profile_mode.off => "off"
  | query_profile_mode.phases => "phases"
  | query_profile_mode.timings => "timings"

/-- Modelled from the spec: str_to_profile_mode is only declared in
src/n1ql.hxx (lines 51-52). The spec calls it parse_profile_mode, the inverse
of profile_mode_to_token on the defined tokens. -/
def str_to_profile_mode (profile_mode : String) : query_profile_mode :=
  if profile_mode = "off" then query_profile_mode.off
  else if profile_mode = "phases" then query_profile_mode.phases
  else query_profile_mode.timings

/-- The list of defined profile-mode tokens (one per enumerator of
query_profile_mode). -/
def profileModeTokens : List String := ["off", "phases", "timings"]

/-- Number of occurrences of pat as a contiguous sublist of a character list:
one count per starting position at which pat is a prefix of the remainder. -/
def countSubstr (pat : List Char) : List Char → Nat
  | [] => if pat.isEmpty then 1 else 0
  | c :: rest =>
      (if pat.isPrefixOf (c :: rest) then 1 else 0) + countSubstr pat rest

/-- Modelled from the spec: the possible resolutions of the asynchronous
native call behind one dispatched operation, including the timeout and
connection-teardown cases the spec requires the dispatcher to surface. -/
inductive NativeOutcome where
  | success (payload : String)
  | nativeError (code : Nat) (msg : String)
  | timeout
  | connClosed
deriving DecidableEq, Repr

/-- Modelled from the spec: the error taxonomy of section 7 (ValidationError,
TimeoutError, NativeOperationError, LifecycleError). -/
inductive ErrorKind where
  | ValidationError
  | TimeoutError
  | NativeOperationError
  | LifecycleError
deriving DecidableEq, Repr

/-- Modelled from the spec: one invocation of a completion callback, either
the success callback with the native payload or the failure callback with a
structured error. -/
inductive CallbackCall where
  | onSuccess (payload : String)
  | onFailure (kind : ErrorKind) (msg : String)
deriving DecidableEq, Repr

/-- Modelled from the spec: the argument fields required per operation kind.
The spec gives CREATE_DATASET (dataset name and backing bucket) and
DROP_INDEX (dataset and index name) explicitly and leaves the remaining
kinds to the native request definitions, so they are left unconstrained. -/
def requiredFields : AnalyticsManagementOperations.OperationType → List String
  | AnalyticsManagementOperations.OperationType.CREATE_DATASET =>
      ["dataset_name", "bucket_name"]
  | AnalyticsManagementOperations.OperationType.DROP_INDEX =>
      ["dataset_name", "index_name"]
  | _ => []

/-- Whether the loosely-typed argument bag carries a field of the given name. -/
def hasField (args : List (String × String)) (f : String) : Bool :=
  args.any (fun kv => kv.fst == f)

/-- Modelled from the spec: the observable effect of one dispatch — the list
of callback invocations it performs and whether the native client layer was
contacted. -/
structure DispatchOutcome where
  calls : List CallbackCall
  nativeContacted : Bool
deriving DecidableEq, Repr

/-- Modelled from the spec: handle_analytics_mgmt_op is only declared in
src/management/analytics_management.hxx (lines 101-102); its body lives in a
translation unit absent from src. Per spec section 4.2 the dispatcher first
validates locally (sentinel kind, required argument fields) and reports a
ValidationError through the failure callback without contacting the native
layer; otherwise it submits the native request and resolves exactly one
callback from the native outcome, mapping timeout and connection teardown to
their error kinds. -/
def handle_analytics_mgmt_op
    (op_type : AnalyticsManagementOperations.OperationType)
    (args : List (String × String)) (native : NativeOutcome) :
    DispatchOutcome :=
  if op_type = AnalyticsManagementOperations.OperationType.UNKNOWN then
    { calls := [CallbackCall.onFailure ErrorKind.ValidationError
                  "unrecognized operation"],
      nativeContacted := false }
  else if !((requiredFields op_type).all (hasField args)) then
    { calls := [CallbackCall.onFailure ErrorKind.ValidationError
                  "missing required field"],
      nativeContacted := false }
  else
    match native with
    | NativeOutcome.success payload =>
        { calls := [CallbackCall.onSuccess payload], nativeContacted := true }
    | NativeOutcome.nativeError _ msg =>
        { calls := [CallbackCall.onFailure ErrorKind.NativeOperationError msg],
          nativeContacted := true }
    | NativeOutcome.timeout =>
        { calls := [CallbackCall.onFailure ErrorKind.TimeoutError
                      "operation timed out"],
          nativeContacted := true }
    | NativeOutcome.connClosed =>
        { calls := [CallbackCall.onFailure ErrorKind.LifecycleError
                      "connection closed"],
          nativeContacted := true }

/-- Whether a callback invocation is the success callback. -/
def CallbackCall.isSuccess : CallbackCall → Bool
  | CallbackCall.onSuccess _ => true
  | CallbackCall.onFailure _ _ => false

/-- Whether a callback invocation is the failure callback (any error kind). -/
def CallbackCall.isFailure : CallbackCall → Bool
  | CallbackCall.onSuccess _ => false
  | CallbackCall.onFailure _ _ => true

/-- Whether a callback invocation is the failure callback carrying a
ValidationError. -/
def CallbackCall.isValidationFailure : CallbackCall → Bool
  | CallbackCall.onFailure ErrorKind.ValidationError _ => true
  | _ => false

/-- Number of success-callback invocations in a dispatch outcome. -/
def DispatchOutcome.successCount (d : DispatchOutcome) : Nat :=
  (d.calls.filter CallbackCall.isSuccess).length

/-- Number of failure-callback invocations in a dispatch outcome. -/
def DispatchOutcome.failureCount (d : DispatchOutcome) : Nat :=
  (d.calls.filter CallbackCall.isFailure).length

open AnalyticsManagementOperations in
/-- The underlying integral values distinguish the enumerators: C++ enum
equality (integer comparison) coincides with equality of enumerators. -/
theorem opTypeToNat_injEq :
    ∀ s t : OperationType, (s.toNat == t.toNat) = true ↔ s = t := by
  decide

/-- Claim C5: a default-constructed AnalyticsManagementOperations holds the
UNKNOWN sentinel — it compares equal (by the class's own operator==) to a
value constructed from UNKNOWN — and the default op_type of
analytics_mgmt_options is likewise UNKNOWN. -/
theorem default_constructed_kind_is_unknown :
    AnalyticsManagementOperations.beqOp AnalyticsManagementOperations.mkDefault
      (AnalyticsManagementOperations.fromOp
        AnalyticsManagementOperations.OperationType.UNKNOWN) = true ∧
    AnalyticsManagementOperations.mkDefault.operation =
      AnalyticsManagementOperations.OperationType.UNKNOWN ∧
    ∀ p : PyObject, ({ op_args := p } : analytics_mgmt_options).op_type =
      AnalyticsManagementOperations.OperationType.UNKNOWN :=
  ⟨rfl, rfl, fun _ => rfl⟩

/-- Claim C7: when the caller supplies no timeout, timeout_ms of
analytics_mgmt_options equals the process-wide default management timeout. -/
theorem default_timeout_is_management_timeout :
    ∀ p : PyObject, ({ op_args := p } : analytics_mgmt_options).timeout_ms =
      timeout_defaults.management_timeout :=
  fun _ => rfl

/-- Claim C9: for all AnalyticsManagementOperations values a and b, operator==
holds exactly when the underlying OperationType values are equal, and
operator!= is the boolean negation of operator== (the only relational
comparisons the class defines). -/
theorem op_equality_matches_underlying :
    ∀ a b : AnalyticsManagementOperations,
      (AnalyticsManagementOperations.beqOp a b = true ↔
        a.operation = b.operation) ∧
      AnalyticsManagementOperations.bneOp a b =
        !(AnalyticsManagementOperations.beqOp a b) :=
  fun a b => ⟨opTypeToNat_injEq a.operation b.operation, rfl⟩

/-- Claim C2: every input string other than not_bounded and request_plus makes
str_to_scan_consistency_type set the Python ValueError indicator (with the
formatted message), so the unrecognized token is a validation error and no
default mode is returned silently. -/
theorem unrecognized_consistency_token_is_error :
    ∀ s : String, s ≠ "not_bounded" → s ≠ "request_plus" →
      (str_to_scan_consistency_type s).snd =
        some ("Invalid Scan Consistency type " ++ s) := by
  intro s h1 h2
  unfold str_to_scan_consistency_type
  rw [if_neg h1, if_neg h2]

/-- Witness for C2 at the concrete token bogus. -/
theorem unrecognized_consistency_token_is_error_witness :
    ("bogus" : String) ≠ "not_bounded" ∧ ("bogus" : String) ≠ "request_plus" ∧
    (str_to_scan_consistency_type "bogus").snd =
      some ("Invalid Scan Consistency type " ++ "bogus") :=
  ⟨by decide, by decide,
   unrecognized_consistency_token_is_error "bogus" (by decide) (by decide)⟩

/-- Claim C3: for both canonical tokens, converting the parsed consistency
mode back to a string is the identity. -/
theorem consistency_token_round_trip :
    scan_consistency_type_to_string
      (str_to_scan_consistency_type "not_bounded").fst = "not_bounded" ∧
    scan_consistency_type_to_string
      (str_to_scan_consistency_type "request_plus").fst = "request_plus" :=
  ⟨rfl, rfl⟩

/-- Claim C8: for every defined profile-mode token, converting the parsed
profile mode back to a string is the identity. -/
theorem profile_mode_token_round_trip :
    profileModeTokens.all
      (fun t => profile_mode_to_str (str_to_profile_mode t) == t) = true := by
  decide

/-- Claim C1: for every valid (kind, args) pair and every resolution of the
native call — success, native error, timeout, or connection closed — the
dispatcher invokes exactly one of the two completion callbacks exactly once:
either one success call and no failure call, or one failure call and no
success call. -/
theorem dispatch_invokes_exactly_one_callback :
    ∀ (op : AnalyticsManagementOperations.OperationType)
      (args : List (String × String)) (native : NativeOutcome),
      op ≠ AnalyticsManagementOperations.OperationType.UNKNOWN →
      (requiredFields op).all (hasField args) = true →
      ((handle_analytics_mgmt_op op args native).successCount = 1 ∧
       (handle_analytics_mgmt_op op args native).failureCount = 0) ∨
      ((handle_analytics_mgmt_op op args native).successCount = 0 ∧
       (handle_analytics_mgmt_op op args native).failureCount = 1) := by
  intro op args native hop hargs
  unfold handle_analytics_mgmt_op
  rw [if_neg hop, hargs]
  cases native <;>
    simp [DispatchOutcome.successCount, DispatchOutcome.failureCount,
      List.filter, CallbackCall.isSuccess, CallbackCall.isFailure]

/-- Witness for C1: dispatching a valid CREATE_DATAVERSE whose native call
times out resolves through exactly one failure callback. -/
theorem dispatch_invokes_exactly_one_callback_witness :
    AnalyticsManagementOperations.OperationType.CREATE_DATAVERSE ≠
      AnalyticsManagementOperations.OperationType.UNKNOWN ∧
    (requiredFields
      AnalyticsManagementOperations.OperationType.CREATE_DATAVERSE).all
      (hasField []) = true ∧
    (((handle_analytics_mgmt_op
        AnalyticsManagementOperations.OperationType.CREATE_DATAVERSE []
        NativeOutcome.timeout).successCount = 1 ∧
      (handle_analytics_mgmt_op
        AnalyticsManagementOperations.OperationType.CREATE_DATAVERSE []
        NativeOutcome.timeout).failureCount = 0) ∨
     ((handle_analytics_mgmt_op
        AnalyticsManagementOperations.OperationType.CREATE_DATAVERSE []
        NativeOutcome.timeout).successCount = 0 ∧
      (handle_analytics_mgmt_op
        AnalyticsManagementOperations.OperationType.CREATE_DATAVERSE []
        NativeOutcome.timeout).failureCount = 1)) :=
  ⟨by decide, by decide,
   dispatch_invokes_exactly_one_callback
     AnalyticsManagementOperations.OperationType.CREATE_DATAVERSE []
     NativeOutcome.timeout (by decide) (by decide)⟩

/-- Claim C4: dispatching the UNKNOWN sentinel kind always performs exactly
one callback invocation, a ValidationError failure, and never contacts the
native client layer, whatever the argument bag and whatever the native layer
would have answered. -/
theorem unknown_sentinel_yields_validation_error :
    ∀ (args : List (String × String)) (native : NativeOutcome),
      (handle_analytics_mgmt_op
        AnalyticsManagementOperations.OperationType.UNKNOWN args
        native).nativeContacted = false ∧
      (handle_analytics_mgmt_op
        AnalyticsManagementOperations.OperationType.UNKNOWN args
        native).calls.all CallbackCall.isValidationFailure = true ∧
      (handle_analytics_mgmt_op
        AnalyticsManagementOperations.OperationType.UNKNOWN args
        native).calls.length = 1 :=
  fun _ _ => ⟨rfl, rfl, rfl⟩

/-- Claim C6: dispatching CREATE_DATASET with an argument bag missing the
dataset-name field reports a single ValidationError through the failure
callback before the native layer is contacted (the dispatch is total, so no
crash is possible in the model). -/
theorem create_dataset_missing_name_validation_error :
    ∀ (args : List (String × String)) (native : NativeOutcome),
      hasField args "dataset_name" = false →
      (handle_analytics_mgmt_op
        AnalyticsManagementOperations.OperationType.CREATE_DATASET args
        native).calls =
        [CallbackCall.onFailure ErrorKind.ValidationError
          "missing required field"] ∧
      (handle_analytics_mgmt_op
        AnalyticsManagementOperations.OperationType.CREATE_DATASET args
        native).nativeContacted = false := by
  intro args native h
  unfold handle_analytics_mgmt_op
  rw [if_neg (by decide :
    ¬ (AnalyticsManagementOperations.OperationType.CREATE_DATASET =
       AnalyticsManagementOperations.OperationType.UNKNOWN))]
  have hall : (requiredFields
      AnalyticsManagementOperations.OperationType.CREATE_DATASET).all
      (hasField args) = false := by
    simp [requiredFields, List.all, h]
  rw [hall]
  exact ⟨rfl, rfl⟩

/-- Witness for C6: the empty argument bag lacks the dataset-name field and
yields the synchronous ValidationError. -/
theorem create_dataset_missing_name_validation_error_witness :
    hasField [] "dataset_name" = false ∧
    ((handle_analytics_mgmt_op
        AnalyticsManagementOperations.OperationType.CREATE_DATASET []
        NativeOutcome.connClosed).calls =
      [CallbackCall.onFailure ErrorKind.ValidationError
        "missing required field"] ∧
     (handle_analytics_mgmt_op
        AnalyticsManagementOperations.OperationType.CREATE_DATASET []
        NativeOutcome.connClosed).nativeContacted = false) :=
  ⟨by decide,
   create_dataset_missing_name_validation_error [] NativeOutcome.connClosed
     (by decide)⟩

set_option maxRecDepth 100000 in
/-- Claim C10: ALL_OPERATIONS is exactly the declaration-order concatenation
of the fifteen non-sentinel enumerator names, each followed by one space, so
each name occurs (as a substring) exactly once and the sentinel name UNKNOWN
does not occur. -/
theorem all_operations_catalog_string :
    AnalyticsManagementOperations.ALL_OPERATIONS =
      String.join ((AnalyticsManagementOperations.nonSentinelOps.map
        AnalyticsManagementOperations.OperationType.name).map
          (fun n => n ++ " ")) ∧
    AnalyticsManagementOperations.nonSentinelOps.length = 15 ∧
    ((AnalyticsManagementOperations.nonSentinelOps.map
        AnalyticsManagementOperations.OperationType.name).all
      (fun n => countSubstr n.toList
        AnalyticsManagementOperations.ALL_OPERATIONS.toList == 1)) = true ∧
    countSubstr "UNKNOWN".toList
      AnalyticsManagementOperations.ALL_OPERATIONS.toList = 0 := by
  refine ⟨by decide, by decide, by decide, by decide⟩
